import Mathlib

/-! UsdGeom (tinyusdz, `src/usdGeom.hh`)

A shallow embedding of the geometric-prim layer of tinyusdz: `GeomPrimvar`,
`GPrim`, `GeomSubset` and `GeomMesh`, with the properties of their accessors.

Conventions of the embedding.

* A C++ method that mutates `*this` is a function returning the new object
  (together with the returned value when there is one).
* `nonstd::expected<bool, std::string>` is `Except String Bool`;
  `nonstd::optional<T>` is `Option T`; `std::vector<T>` is `List T`;
  `std::map<std::string, T>` is an association list with unique keys.
* `int32_t`, `int64_t` are `Int`, `uint32_t` is `Nat`: no arithmetic is done on
  them here, so every statement proved for all integers holds for the machine
  ranges.
* Types declared in headers that are not part of `usdGeom.hh` (`Attribute`,
  `Property`, `value::Value`, ...) are modelled from the specification; each
  such definition says so.
-/

namespace tinyusdz

/-! ## The value catalog -/

/-- Element kinds of the value catalog: the kinds enumerated by the macro
`APPLY_GEOMPRIVAR_TYPE` of `usdGeom.hh`, followed by `token` and `string`,
which the catalog has but the primvar list leaves out. -/
inductive TypeKind
  | half | half2 | half3 | half4
  | int | int2 | int3 | int4
  | uint | uint2 | uint3 | uint4
  | float | float2 | float3 | float4
  | double | double2 | double3 | double4
  | matrix2d | matrix3d | matrix4d
  | quath | quatf | quatd
  | normal3h | normal3f | normal3d
  | vector3h | vector3f | vector3d
  | point3h | point3f | point3d
  | color3f | color3d | color4f | color4d
  | texcoord2h | texcoord2f | texcoord2d
  | texcoord3h | texcoord3f | texcoord3d
  | token | string
  deriving DecidableEq

/-- The list of the macro `APPLY_GEOMPRIVAR_TYPE` (usdGeom.hh, lines 814-859),
in the order of the source. -/
def APPLY_GEOMPRIVAR_TYPE : List TypeKind :=
  [.half, .half2, .half3, .half4,
   .int, .int2, .int3, .int4,
   .uint, .uint2, .uint3, .uint4,
   .float, .float2, .float3, .float4,
   .double, .double2, .double3, .double4,
   .matrix2d, .matrix3d, .matrix4d,
   .quath, .quatf, .quatd,
   .normal3h, .normal3f, .normal3d,
   .vector3h, .vector3f, .vector3d,
   .point3h, .point3f, .point3d,
   .color3f, .color3d, .color4f, .color4d,
   .texcoord2h, .texcoord2f, .texcoord2d,
   .texcoord3h, .texcoord3f, .texcoord3d]

/-- Modelled from the spec: `IsSupportedGeomPrimvarType` is only declared in
`usdGeom.hh` (line 40); the supported indexable kinds are those the header
instantiates `get_value` and `flatten_with_indices` for. -/
def IsSupportedGeomPrimvarType (k : TypeKind) : Bool :=
  APPLY_GEOMPRIVAR_TYPE.contains k

/-- A value type: an element kind, scalar or array (`T` or `std::vector<T>`). -/
structure ValueType where
  kind : TypeKind
  isArray : Bool
  deriving DecidableEq

/-- Modelled from the spec: `value::Value` (value-types.hh) is a type-tagged
boxed value, a scalar or an ordered sequence of elements of one kind. An
element is kept as an integer: the `int32_t` itself for kind `int`, a code of
the element for the other kinds (nothing here computes on elements). -/
inductive Value
  | scalar (kind : TypeKind) (x : Int)
  | array (kind : TypeKind) (xs : List Int)
  deriving DecidableEq

/-- The type tag carried by a value. -/
def Value.type : Value → ValueType
  | .scalar k _ => ⟨k, false⟩
  | .array k _ => ⟨k, true⟩

/-- Type identifiers and type names of the value catalog. The enumeration
`value::TypeId` (with `TYPE_ID_NULL`) and the traits giving each type its
identifier and its name live in value-types.hh, which is not among the sources:
they are parameters of the embedding. -/
structure TypeTraits where
  TYPE_ID_NULL : Nat
  type_id : ValueType → Nat
  type_name : ValueType → String

/-- Modelled from the spec: `Animatable<T>`, either a single default or a
time-indexed ordered sequence of samples with an optional default. Times are
kept as integers. -/
inductive Animatable
  | dflt (v : Value)
  | sampled (samples : List (Int × Value)) (dflt : Option Value)
  deriving DecidableEq

/-- Modelled from the spec: resolution at the default time code. `Default(v)`
resolves to `v` at any time; a sampled payload has, at the default time, its
default slot when there is one. -/
def Animatable.atDefault : Animatable → Option Value
  | .dflt v => some v
  | .sampled _ d => d

/-- The value type of a payload, when it holds at least one value. -/
def Animatable.type : Animatable → Option ValueType
  | .dflt v => some v.type
  | .sampled _ (some d) => some d.type
  | .sampled ((_, v) :: _) none => some v.type
  | .sampled [] none => none

/-- Interpolation tokens of a primvar (spec, data model of GeomPrimvar). -/
inductive Interpolation
  | constant | uniform | varying | vertex | faceVarying
  deriving DecidableEq

/-- Modelled from the spec: the metadata attached to an attribute that the
primvar accessors read and write. -/
structure AttrMeta where
  interpolation : Option Interpolation
  elementSize : Option Nat
  deriving DecidableEq

/-- Modelled from the spec: `Attribute` (prim-types.hh), a storage cell with an
authored flag, an Animatable payload and attached metadata. Its name is the key
it is stored under in a property map. -/
structure Attribute where
  authored : Bool
  payload : Animatable
  metas : AttrMeta
  deriving DecidableEq

/-- A default-constructed attribute: not authored, nothing stored. -/
def Attribute.empty : Attribute :=
  { authored := false, payload := .sampled [] none, metas := ⟨none, none⟩ }

/-- An attribute authored with one value (`Attribute::set_value` on a fresh
attribute). -/
def Attribute.ofValue (v : Value) : Attribute :=
  { authored := true, payload := .dflt v, metas := ⟨none, none⟩ }

/-- Modelled from the spec: `Attribute::set_value`; the cell becomes authored
with `Default(v)`, its metadata is kept. -/
def Attribute.set_value (a : Attribute) (v : Value) : Attribute :=
  { a with authored := true, payload := .dflt v }

/-- Modelled from the spec: `Attribute::type_name`; derived from the contained
value, and `"null"` for an unauthored attribute whatever its payload. -/
def Attribute.type_name (traits : TypeTraits) (a : Attribute) : String :=
  if a.authored then
    match a.payload.type with
    | some t => traits.type_name t
    | none => "null"
  else "null"

/-- Modelled from the spec: `Attribute::type_id`; derived from the contained
value, and `TYPE_ID_NULL` for an unauthored attribute whatever its payload. -/
def Attribute.type_id (traits : TypeTraits) (a : Attribute) : Nat :=
  if a.authored then
    match a.payload.type with
    | some t => traits.type_id t
    | none => traits.TYPE_ID_NULL
  else traits.TYPE_ID_NULL

/-- Modelled from the spec: `Relationship`, a reference or a list of references
to other node paths. -/
structure Relationship where
  targets : List String
  deriving DecidableEq

/-- Modelled from the spec: `Property`, the sum stored per node under a name. -/
inductive Property
  | attr (a : Attribute)
  | rel (r : Relationship)
  deriving DecidableEq

/-- Specifier of a prim (spec: one of Def/Over/Class). -/
inductive Specifier
  | Def | Over | Class
  deriving DecidableEq

/-- Modelled from the spec: `PrimMeta`, the metadata bag of a prim; the
operations of this file never look inside. -/
structure PrimMeta where
  entries : List (String × String)
  deriving DecidableEq

/-! ## Property maps (`std::map<std::string, Property>`) -/

/-- A property map: at most one property per name. -/
abbrev PropMap := List (String × Property)

/-- Lookup by name, `props.find(key)`. -/
def PropMap.lookup (m : PropMap) (key : String) : Option Property :=
  match m with
  | [] => none
  | (k, p) :: rest => if k = key then some p else PropMap.lookup rest key

/-- Writing `p` under `key`: the entry of that name is replaced when there is
one, added otherwise. -/
def PropMap.insert (m : PropMap) (key : String) (p : Property) : PropMap :=
  match m with
  | [] => [(key, p)]
  | (k, q) :: rest =>
    if k = key then (key, p) :: rest else (k, q) :: PropMap.insert rest key p

/-! ## GeomPrimvar -/

/-- The private fields of `class GeomPrimvar` (usdGeom.hh, lines 225-232). -/
structure GeomPrimvar where
  _name : String
  _has_value : Bool
  _attr : Attribute
  _indices : List Int
  _elementSize : Option Nat
  _interpolation : Option Interpolation
  deriving DecidableEq

namespace GeomPrimvar

/-- Constructor `GeomPrimvar()`: `_has_value(false)`, every other member
default-initialised. -/
def new : GeomPrimvar :=
  { _name := "", _has_value := false, _attr := Attribute.empty, _indices := [],
    _elementSize := none, _interpolation := none }

/-- Constructor `GeomPrimvar(const Attribute &attr)`. -/
def ofAttr (attr : Attribute) : GeomPrimvar :=
  { _name := "", _has_value := true, _attr := attr, _indices := [],
    _elementSize := none, _interpolation := none }

/-- Constructor `GeomPrimvar(const Attribute &attr, const std::vector<int32_t>
&indices)`. -/
def ofAttrIndices (attr : Attribute) (indices : List Int) : GeomPrimvar :=
  { _name := "", _has_value := true, _attr := attr, _indices := indices,
    _elementSize := none, _interpolation := none }

/-- Method `get_indices`. -/
def get_indices (pv : GeomPrimvar) : List Int := pv._indices

/-- Method `has_indices`: `return _indices.size();`, a size converted to bool. -/
def has_indices (pv : GeomPrimvar) : Bool := pv._indices.length != 0

/-- Method `name`. -/
def name (pv : GeomPrimvar) : String := pv._name

/-- Method `has_value`. -/
def has_value (pv : GeomPrimvar) : Bool := pv._has_value

/-- Method `get_attribute`. -/
def get_attribute (pv : GeomPrimvar) : Attribute := pv._attr

/-- Method `get_type_name`. -/
def get_type_name (traits : TypeTraits) (pv : GeomPrimvar) : String :=
  if !pv._has_value then "null" else pv._attr.type_name traits

/-- Method `get_type_id`. -/
def get_type_id (traits : TypeTraits) (pv : GeomPrimvar) : Nat :=
  if !pv._has_value then traits.TYPE_ID_NULL else pv._attr.type_id traits

/-- Method `set_value(const Attribute &attr)`. -/
def set_value (pv : GeomPrimvar) (attr : Attribute) : GeomPrimvar :=
  { pv with _attr := attr, _has_value := true }

/-- Method `set_name`. -/
def set_name (pv : GeomPrimvar) (name : String) : GeomPrimvar :=
  { pv with _name := name }

/-- Method `set_indices`. -/
def set_indices (pv : GeomPrimvar) (indices : List Int) : GeomPrimvar :=
  { pv with _indices := indices }

/-- Method `set_elementSize`. -/
def set_elementSize (pv : GeomPrimvar) (n : Nat) : GeomPrimvar :=
  { pv with _elementSize := some n }

/-- Method `set_interpolation`. -/
def set_interpolation (pv : GeomPrimvar) (interp : Interpolation) : GeomPrimvar :=
  { pv with _interpolation := some interp }

/-- Method `set_value(const T &val)`, the template overload:
`_attr.set_value(val); _has_value = true;`. -/
def set_value_typed (pv : GeomPrimvar) (val : Value) : GeomPrimvar :=
  { pv with _attr := pv._attr.set_value val, _has_value := true }

/-- Copy constructor `GeomPrimvar(const GeomPrimvar &rhs)` (lines 77-89). The
members start default-initialised (`_has_value{false}`, empty optionals); the
body then assigns name, attribute, indices and flag, and assigns each optional
only under `if (rhs._elementSize)`, `if (rhs._interpolation)`. -/
def copy (rhs : GeomPrimvar) : GeomPrimvar :=
  let t0 : GeomPrimvar :=
    { _name := "", _has_value := false, _attr := Attribute.empty, _indices := [],
      _elementSize := none, _interpolation := none }
  let t1 : GeomPrimvar :=
    { t0 with _name := rhs._name, _attr := rhs._attr, _indices := rhs._indices,
              _has_value := rhs._has_value }
  let t2 : GeomPrimvar :=
    if rhs._elementSize.isSome then { t1 with _elementSize := rhs._elementSize } else t1
  if rhs._interpolation.isSome then { t2 with _interpolation := rhs._interpolation }
  else t2

/-- Copy assignment `operator=(const GeomPrimvar &rhs)` (lines 91-105), `self`
being `*this` before the call. The body assigns name, attribute, indices and
flag, and assigns each optional only under `if (rhs._elementSize)`,
`if (rhs._interpolation)`. -/
def assign (self rhs : GeomPrimvar) : GeomPrimvar :=
  let t1 : GeomPrimvar :=
    { self with _name := rhs._name, _attr := rhs._attr, _indices := rhs._indices,
                _has_value := rhs._has_value }
  let t2 : GeomPrimvar :=
    if rhs._elementSize.isSome then { t1 with _elementSize := rhs._elementSize } else t1
  if rhs._interpolation.isSome then { t2 with _interpolation := rhs._interpolation }
  else t2

end GeomPrimvar

/-- A way of obtaining a GeomPrimvar with the public interface of the class: one
of the three constructors, followed by any setters, copy constructions and
copy assignments. -/
inductive Construction
  | new
  | ofAttr (attr : Attribute)
  | ofAttrIndices (attr : Attribute) (indices : List Int)
  | copy (rhs : Construction)
  | assign (self rhs : Construction)
  | set_value (c : Construction) (attr : Attribute)
  | set_value_typed (c : Construction) (val : Value)
  | set_name (c : Construction) (name : String)
  | set_indices (c : Construction) (indices : List Int)
  | set_elementSize (c : Construction) (n : Nat)
  | set_interpolation (c : Construction) (interp : Interpolation)

/-- The GeomPrimvar a construction ends with. -/
def Construction.result : Construction → GeomPrimvar
  | .new => GeomPrimvar.new
  | .ofAttr attr => GeomPrimvar.ofAttr attr
  | .ofAttrIndices attr indices => GeomPrimvar.ofAttrIndices attr indices
  | .copy rhs => GeomPrimvar.copy rhs.result
  | .assign self rhs => GeomPrimvar.assign self.result rhs.result
  | .set_value c attr => c.result.set_value attr
  | .set_value_typed c val => c.result.set_value_typed val
  | .set_name c name => c.result.set_name name
  | .set_indices c indices => c.result.set_indices indices
  | .set_elementSize c n => c.result.set_elementSize n
  | .set_interpolation c interp => c.result.set_interpolation interp

/-- Every `set_elementSize` call of the construction passes a positive size. -/
def Construction.sizesPositive : Construction → Bool
  | .new => true
  | .ofAttr _ => true
  | .ofAttrIndices _ _ => true
  | .copy rhs => rhs.sizesPositive
  | .assign self rhs => self.sizesPositive && rhs.sizesPositive
  | .set_value c _ => c.sizesPositive
  | .set_value_typed c _ => c.sizesPositive
  | .set_name c _ => c.sizesPositive
  | .set_indices c _ => c.sizesPositive
  | .set_elementSize c n => decide (1 ≤ n) && c.sizesPositive
  | .set_interpolation c _ => c.sizesPositive

/-! ## Errors, and the declared-only operations of GeomPrimvar -/

/-- Error taxonomy of the specification (section 7). An operation of the source
that returns `bool` with an optional message is embedded as `Except Error`:
`.ok x` is a `true` return with `x` stored in the destination. -/
inductive Error
  | TypeMismatch
  | NotAuthored
  | IndexOutOfBounds
  | InvalidName
  | SubsetConstraintViolation (missing duplicated : List Nat)
  | UnsupportedValueKind
  deriving DecidableEq

/-- Modelled from the spec: resolution of an attribute at the default time;
there is no value when the attribute is unauthored (`Attribute` is declared in
prim-types.hh, not part of the sources). -/
def Attribute.resolve (a : Attribute) : Except Error Value :=
  if a.authored then
    match a.payload.atDefault with
    | some v => .ok v
    | none => .error .NotAuthored
  else .error .NotAuthored

/-! ## Resolution at a time -/

namespace GeomPrimvar

/-- Modelled from the spec: `GeomPrimvar::get_value` is only declared in
`usdGeom.hh` (lines 185-188). It returns the attribute's resolved value at the
default time, typed (`req = some t`, the overloads `get_value(T *)` and
`get_value(std::vector<T> *)`) or generic (`req = none`, the overload on
`value::Value`); it fails when the primvar is unauthored, when the stored kind
is not in the supported catalog, and when the stored type is not the requested
one. -/
def get_value (pv : GeomPrimvar) (req : Option ValueType) : Except Error Value :=
  if !pv._has_value then .error .NotAuthored
  else
    match pv._attr.resolve with
    | .error e => .error e
    | .ok v =>
      if !IsSupportedGeomPrimvarType v.type.kind then .error .UnsupportedValueKind
      else
        match req with
        | none => .ok v
        | some t => if v.type = t then .ok v else .error .TypeMismatch

/-- Modelled from the spec: the loop of `flatten_with_indices`, written in the
header as `for i in len(indices): dest[i] = values[indices[i]]`. One pass over
the index array; each looked-up element is appended to the destination; an
index outside `values` stops with an error, it is never clamped. -/
def flattenLoop (values : List Int) : List Int → List Int → Except Error (List Int)
  | [], dest => .ok dest
  | i :: rest, dest =>
    if h : 0 ≤ i ∧ i.toNat < values.length then
      flattenLoop values rest (dest ++ [values.get ⟨i.toNat, h.2⟩])
    else .error .IndexOutOfBounds

/-- Modelled from the spec: `GeomPrimvar::flatten_with_indices` is only
declared in `usdGeom.hh` (lines 121-128). Without indices it behaves as
`get_value`. With indices the resolved value has to be an array, and the
destination is the array of the same kind read through the index array. -/
def flatten_with_indices (pv : GeomPrimvar) (req : Option ValueType) :
    Except Error Value :=
  if !pv.has_indices then pv.get_value req
  else
    match pv.get_value req with
    | .error e => .error e
    | .ok (.scalar _ _) => .error .TypeMismatch
    | .ok (.array k values) =>
      match flattenLoop values pv._indices [] with
      | .error e => .error e
      | .ok dest => .ok (.array k dest)

end GeomPrimvar

/-! ## GPrim -/

/-- The fields of `struct GPrim` that identify the prim and that the primvar
accessors read and write (usdGeom.hh, lines 246-381). The typed fields
`extent`, `doubleSided`, `orientation`, `visibility`, `purpose`, the material
bindings and the composition fields are stored data that no operation of this
file looks at. -/
structure GPrim where
  name : String
  spec : Specifier
  parent_id : Int
  prim_type : String
  props : PropMap
  meta : PrimMeta
  deriving DecidableEq

namespace GPrim

/-- Method `set_name`. -/
def set_name (g : GPrim) (name_ : String) : GPrim := { g with name := name_ }

/-- Method `get_name`. -/
def get_name (g : GPrim) : String := g.name

/-- The namespace of primvar properties, `"primvars:"`. -/
def kPrimvars : String := "primvars:"

/-- The suffix of the index companion of a primvar, `":indices"`. -/
def kIndices : String := ":indices"

/-- Modelled from the spec: `GPrim::get_primvar` is only declared in
`usdGeom.hh` (line 308). It looks up the property `"primvars:" + name`, which
must be an Attribute; binds the sibling `"primvars:" + name + ":indices"` as
the index array when it is there (an attribute resolving to an `int` array);
reads the metadata `interpolation` and `elementSize` of the property when
present. It fails only if the base property is absent or is a Relationship. -/
def get_primvar (g : GPrim) (name : String) : Except Error GeomPrimvar :=
  match g.props.lookup (kPrimvars ++ name) with
  | none => .error .NotAuthored
  | some (.rel _) => .error .TypeMismatch
  | some (.attr a) =>
    let pv0 := (GeomPrimvar.ofAttr a).set_name name
    let pv1 :=
      match a.metas.interpolation with
      | some interp => pv0.set_interpolation interp
      | none => pv0
    let pv2 :=
      match a.metas.elementSize with
      | some n => pv1.set_elementSize n
      | none => pv1
    match g.props.lookup (kPrimvars ++ name ++ kIndices) with
    | some (.attr ia) =>
      match ia.resolve with
      | .ok (.array .int idx) => .ok (pv2.set_indices idx)
      | _ => .ok pv2
    | _ => .ok pv2

/-- Modelled from the spec: `GPrim::has_primvar` (declared at line 315), an
existence probe for the attribute `"primvars:" + name`. -/
def has_primvar (g : GPrim) (name : String) : Bool :=
  match g.props.lookup (kPrimvars ++ name) with
  | some (.attr _) => true
  | _ => false

/-- Modelled from the spec: the attribute that `set_primvar` writes, the
primvar's attribute with the primvar's interpolation and elementSize as
attached metadata when the primvar has them. -/
def primvarAttribute (primvar : GeomPrimvar) : Attribute :=
  let attr0 := primvar.get_attribute
  let attr1 : Attribute :=
    match primvar._interpolation with
    | some interp => { attr0 with metas := { attr0.metas with interpolation := some interp } }
    | none => attr0
  match primvar._elementSize with
  | some n => { attr1 with metas := { attr1.metas with elementSize := some n } }
  | none => attr1

/-- Modelled from the spec: `GPrim::set_primvar` is only declared in
`usdGeom.hh` (line 330). It writes the attribute under `"primvars:" +
primvar.name`, with interpolation and elementSize as attached metadata; writes
the index array under the `":indices"` companion only if it is non-empty; fails
if the name is empty. -/
def set_primvar (g : GPrim) (primvar : GeomPrimvar) : Except Error GPrim :=
  if primvar.name = "" then .error .InvalidName
  else
    let props1 := g.props.insert (kPrimvars ++ primvar.name)
      (.attr (primvarAttribute primvar))
    let props2 :=
      if primvar.has_indices then
        props1.insert (kPrimvars ++ primvar.name ++ kIndices)
          (.attr (Attribute.ofValue (.array .int primvar.get_indices)))
      else props1
    .ok { g with props := props2 }

end GPrim

/-! ## GeomSubset -/

namespace GeomSubset

/-- The enumeration `GeomSubset::ElementType`. -/
inductive ElementType
  | Face
  deriving DecidableEq

/-- The enumeration `GeomSubset::FamilyType`. -/
inductive FamilyType
  | Partition
  | NonOverlapping
  | Unrestricted
  deriving DecidableEq

end GeomSubset

/-- The fields of `struct GeomSubset` (usdGeom.hh, lines 397-436). -/
structure GeomSubset where
  name : String
  spec : Specifier
  parent_id : Int
  elementType : GeomSubset.ElementType
  familyType : GeomSubset.FamilyType
  familyName : Option String
  indices : List Nat
  props : PropMap
  meta : PrimMeta
  deriving DecidableEq

namespace GeomSubset

/-- A default-initialised `GeomSubset`, with the member initialisers of the
source. -/
def new : GeomSubset :=
  { name := "", spec := .Def, parent_id := -1, elementType := .Face,
    familyType := .Unrestricted, familyName := none, indices := [], props := [],
    meta := ⟨[]⟩ }

/-- Method `SetElementType`: the returned `expected` and the subset
afterwards. -/
def SetElementType (s : GeomSubset) (str : String) :
    Except String Bool × GeomSubset :=
  if str = "face" then
    (.ok true, { s with elementType := .Face })
  else
    (.error ("Only `face` is supported for `elementType`, but `" ++ str ++
      "` specified"), s)

/-- Method `SetFamilyType`: the returned `expected` and the subset
afterwards. -/
def SetFamilyType (s : GeomSubset) (str : String) :
    Except String Bool × GeomSubset :=
  if str = "partition" then
    (.ok true, { s with familyType := .Partition })
  else if str = "nonOverlapping" then
    (.ok true, { s with familyType := .NonOverlapping })
  else if str = "unrestricted" then
    (.ok true, { s with familyType := .Unrestricted })
  else
    (.error ("Invalid `familyType` specified: `" ++ str ++ "`."), s)

end GeomSubset

/-! ## GeomMesh -/

/-- Modelled from the spec: a typed attribute slot of a node
(`TypedAttribute<T>`, prim-types.hh). The slot is empty, holds an attribute, or
holds a relationship to other paths. -/
abbrev TypedAttribute := Option Property

/-- The fields of `struct GeomMesh` used by the accessors of this file
(usdGeom.hh, lines 441-587), on top of those of `GPrim`. The subdivision
fields and the skeleton bindings are stored data that no operation of this
file looks at. -/
structure GeomMesh extends GPrim where
  points : TypedAttribute
  normals : TypedAttribute
  velocities : TypedAttribute
  faceVertexCounts : TypedAttribute
  faceVertexIndices : TypedAttribute
  materialBindFamilyType : GeomSubset.FamilyType
  geom_subset_children : List GeomSubset

namespace GeomMesh

/-- Modelled from the spec: the resolved array of a typed slot at the default
time; empty when the slot is empty, holds a relationship, is unauthored or is
not an array of kind `k`. -/
def slotArray (slot : TypedAttribute) (k : TypeKind) : List Int :=
  match slot with
  | some (.attr a) =>
    match a.resolve with
    | .ok (.array k2 xs) => if k2 = k then xs else []
    | _ => []
  | _ => []

/-- Modelled from the spec: `GeomMesh::get_faceVertexCounts` (declared at line
532), a resolved copy of `faceVertexCounts`. -/
def get_faceVertexCounts (m : GeomMesh) : List Int :=
  slotArray m.faceVertexCounts .int

/-- Modelled from the spec: the coverage/count structure of subset validation,
one counter per face of the parent mesh; an index that is not a face of the
mesh has no counter. -/
def countFaces (nfaces : Nat) (ids : List Nat) : List Nat :=
  ids.foldl (fun cnt i => if i < nfaces then cnt.set i (cnt.getD i 0 + 1) else cnt)
    (List.replicate nfaces 0)

/-- Faces that no subset of the family holds. -/
def missingFaces (nfaces : Nat) (cnt : List Nat) : List Nat :=
  (List.range nfaces).filter (fun f => cnt.getD f 0 == 0)

/-- Faces that the subsets of the family hold more than once. -/
def duplicatedFaces (nfaces : Nat) (cnt : List Nat) : List Nat :=
  (List.range nfaces).filter (fun f => 1 < cnt.getD f 0)

/-- Modelled from the spec: the rule of one subset against its siblings, the
children sharing its familyName. Partition: every face of the mesh is covered
exactly once, and a violation reports the missing and the duplicated faces;
NonOverlapping: no face is covered twice; Unrestricted: nothing to check. The
elementType is `Face`, the only granularity there is. -/
def validateSubset (nfaces : Nat) (children : List GeomSubset) (s : GeomSubset) :
    Except Error Bool :=
  match s.elementType with
  | .Face =>
    let siblings := children.filter (fun t => t.familyName = s.familyName)
    let cnt := countFaces nfaces (siblings.flatMap (fun t => t.indices))
    match s.familyType with
    | .Partition =>
      if missingFaces nfaces cnt = [] ∧ duplicatedFaces nfaces cnt = [] then .ok true
      else .error (.SubsetConstraintViolation (missingFaces nfaces cnt)
        (duplicatedFaces nfaces cnt))
    | .NonOverlapping =>
      if duplicatedFaces nfaces cnt = [] then .ok true
      else .error (.SubsetConstraintViolation [] (duplicatedFaces nfaces cnt))
    | .Unrestricted => .ok true

/-- Validation of the subsets one after the other, stopping at the first
violation. -/
def validateAll (nfaces : Nat) (children : List GeomSubset) :
    List GeomSubset → Except Error Bool
  | [] => .ok true
  | s :: rest =>
    match validateSubset nfaces children s with
    | .error e => .error e
    | .ok _ => validateAll nfaces children rest

/-- Modelled from the spec: `GeomMesh::ValidateGeomSubset` is only declared in
`usdGeom.hh` (line 586). It validates the subsets attached to the mesh against
the face count of the mesh, the length of `faceVertexCounts`. The error of the
returned `expected` is kept as the violation with its face lists, where the
source has the message built from them. -/
def ValidateGeomSubset (m : GeomMesh) : Except Error Bool :=
  validateAll m.get_faceVertexCounts.length m.geom_subset_children
    m.geom_subset_children

end GeomMesh

end tinyusdz

/-! # Properties -/

namespace tinyusdz

/-! ## GeomSubset setters -/

/-- C7: `GeomSubset::SetElementType` accepts only face granularity. For every
subset and every string `str`, the call returns success (`true`) if and only if
`str` is exactly `"face"`, and then `elementType` is `Face` afterwards; for
every other string it returns the error message
"Only `face` is supported for `elementType`, but `" + str + "` specified". -/
theorem SetElementType_accepts_only_face (s : GeomSubset) (str : String) :
    ((s.SetElementType str).1 = .ok true ↔ str = "face") ∧
    (str = "face" → (s.SetElementType str).2.elementType = .Face) ∧
    (str ≠ "face" →
      (s.SetElementType str).1 =
        .error ("Only `face` is supported for `elementType`, but `" ++ str ++
          "` specified")) := by
  unfold GeomSubset.SetElementType
  by_cases h : str = "face"
  · simp [h]
  · simp [h]

/-- C7 at concrete inputs: `"face"` is accepted, `"point"` is refused with the
message of the source. -/
theorem SetElementType_accepts_only_face_witness :
    (GeomSubset.new.SetElementType "face").1 = .ok true ∧
    (GeomSubset.new.SetElementType "face").2.elementType = .Face ∧
    (GeomSubset.new.SetElementType "point").1 =
      .error "Only `face` is supported for `elementType`, but `point` specified" :=
  ⟨(SetElementType_accepts_only_face GeomSubset.new "face").1.mpr rfl,
   (SetElementType_accepts_only_face GeomSubset.new "face").2.1 rfl,
   (SetElementType_accepts_only_face GeomSubset.new "point").2.2 (by decide)⟩

/-- C8: `GeomSubset::SetFamilyType` maps exactly three tokens. For every subset
and every string `str`, the call succeeds if and only if `str` is one of
`"partition"`, `"nonOverlapping"`, `"unrestricted"` (compared exactly, so case
matters); on success `familyType` is respectively `Partition`,
`NonOverlapping`, `Unrestricted`; for every other string the call returns the
error "Invalid `familyType` specified: `" + str + "`.". -/
theorem SetFamilyType_maps_three_tokens (s : GeomSubset) (str : String) :
    ((s.SetFamilyType str).1 = .ok true ↔
      (str = "partition" ∨ str = "nonOverlapping" ∨ str = "unrestricted")) ∧
    (str = "partition" → (s.SetFamilyType str).2.familyType = .Partition) ∧
    (str = "nonOverlapping" → (s.SetFamilyType str).2.familyType = .NonOverlapping) ∧
    (str = "unrestricted" → (s.SetFamilyType str).2.familyType = .Unrestricted) ∧
    (¬ (str = "partition" ∨ str = "nonOverlapping" ∨ str = "unrestricted") →
      (s.SetFamilyType str).1 =
        .error ("Invalid `familyType` specified: `" ++ str ++ "`.")) := by
  unfold GeomSubset.SetFamilyType
  by_cases h1 : str = "partition"
  · subst h1; simp
  · by_cases h2 : str = "nonOverlapping"
    · subst h2; simp
    · by_cases h3 : str = "unrestricted"
      · subst h3; simp
      · simp [h1, h2, h3]

/-- C8 at concrete inputs: the three tokens, and `"Partition"` with a capital,
which is refused. -/
theorem SetFamilyType_maps_three_tokens_witness :
    (GeomSubset.new.SetFamilyType "partition").2.familyType = .Partition ∧
    (GeomSubset.new.SetFamilyType "nonOverlapping").2.familyType = .NonOverlapping ∧
    (GeomSubset.new.SetFamilyType "unrestricted").2.familyType = .Unrestricted ∧
    (GeomSubset.new.SetFamilyType "Partition").1 =
      .error "Invalid `familyType` specified: `Partition`." :=
  ⟨(SetFamilyType_maps_three_tokens GeomSubset.new "partition").2.1 rfl,
   (SetFamilyType_maps_three_tokens GeomSubset.new "nonOverlapping").2.2.1 rfl,
   (SetFamilyType_maps_three_tokens GeomSubset.new "unrestricted").2.2.2.1 rfl,
   (SetFamilyType_maps_three_tokens GeomSubset.new "Partition").2.2.2.2 (by decide)⟩

/-! ## GeomPrimvar: type probes and indices -/

/-- C9: an unauthored primvar reports the null type regardless of residual
payload. For every GeomPrimvar whose `has_value()` is false, whatever attribute
it holds, `get_type_name()` is `"null"` and `get_type_id()` is `TYPE_ID_NULL`;
whenever `has_value()` is true they are the bound attribute's type name and
type id. -/
theorem unauthored_primvar_reports_null (traits : TypeTraits) (pv : GeomPrimvar) :
    (pv.has_value = false →
      pv.get_type_name traits = "null" ∧
      pv.get_type_id traits = traits.TYPE_ID_NULL) ∧
    (pv.has_value = true →
      pv.get_type_name traits = pv.get_attribute.type_name traits ∧
      pv.get_type_id traits = pv.get_attribute.type_id traits) := by
  unfold GeomPrimvar.has_value GeomPrimvar.get_type_name GeomPrimvar.get_type_id
    GeomPrimvar.get_attribute
  constructor
  · intro h; simp [h]
  · intro h; simp [h]

/-- C9 at concrete inputs, with 1 for `TYPE_ID_NULL`, 7 for every other type
identifier and `"float3[]"` for every type name: a primvar holding an authored
`float3[]` attribute with the flag off reports null; with the flag on it
reports the attribute's type. -/
theorem unauthored_primvar_reports_null_witness :
    (({ GeomPrimvar.ofAttr (Attribute.ofValue (.array .float3 [1, 2])) with
          _has_value := false } : GeomPrimvar).get_type_name
          ⟨1, fun _ => 7, fun _ => "float3[]"⟩ = "null" ∧
      ({ GeomPrimvar.ofAttr (Attribute.ofValue (.array .float3 [1, 2])) with
          _has_value := false } : GeomPrimvar).get_type_id
          ⟨1, fun _ => 7, fun _ => "float3[]"⟩ = 1) ∧
    ((GeomPrimvar.ofAttr (Attribute.ofValue (.array .float3 [1, 2]))).get_type_name
          ⟨1, fun _ => 7, fun _ => "float3[]"⟩ = "float3[]" ∧
      (GeomPrimvar.ofAttr (Attribute.ofValue (.array .float3 [1, 2]))).get_type_id
          ⟨1, fun _ => 7, fun _ => "float3[]"⟩ = 7) :=
  ⟨(unauthored_primvar_reports_null ⟨1, fun _ => 7, fun _ => "float3[]"⟩
      { GeomPrimvar.ofAttr (Attribute.ofValue (.array .float3 [1, 2])) with
        _has_value := false }).1 rfl,
   (unauthored_primvar_reports_null ⟨1, fun _ => 7, fun _ => "float3[]"⟩
      (GeomPrimvar.ofAttr (Attribute.ofValue (.array .float3 [1, 2])))).2 rfl⟩

/-- C10: an empty index array means no indexing. For every GeomPrimvar and
every index list `v`, after `set_indices(v)` the result of `get_indices()` is
`v` and `has_indices()` is true if and only if `v` is non-empty; a GeomPrimvar
built by the default constructor or from an attribute alone has
`has_indices()` false. -/
theorem empty_indices_means_no_indexing (pv : GeomPrimvar) (v : List Int) :
    (pv.set_indices v).get_indices = v ∧
    ((pv.set_indices v).has_indices = true ↔ v ≠ []) ∧
    GeomPrimvar.new.has_indices = false ∧
    (∀ attr : Attribute, (GeomPrimvar.ofAttr attr).has_indices = false) := by
  refine ⟨rfl, ?_, rfl, fun _ => rfl⟩
  cases v <;> simp [GeomPrimvar.set_indices, GeomPrimvar.has_indices]

/-! ## GeomPrimvar: flattening an indexed primvar -/

/-- With every index inside `values`, the loop succeeds and appends to the
destination the elements looked up, in the order of the index array. -/
theorem flattenLoop_in_bounds (values : List Int) :
    ∀ (indices dest : List Int),
      (∀ i ∈ indices, 0 ≤ i ∧ i < values.length) →
      GeomPrimvar.flattenLoop values indices dest =
        .ok (dest ++ indices.map (fun i => values.getD i.toNat 0)) := by
  intro indices
  induction indices with
  | nil => intro dest _; simp [GeomPrimvar.flattenLoop]
  | cons i rest ih =>
    intro dest h
    have hi := h i (List.mem_cons_self i rest)
    have hlt : i.toNat < values.length := (Int.toNat_lt hi.1).mpr hi.2
    have hrest : ∀ x ∈ rest, 0 ≤ x ∧ x < values.length :=
      fun x hx => h x (List.mem_cons_of_mem i hx)
    unfold GeomPrimvar.flattenLoop
    rw [dif_pos ⟨hi.1, hlt⟩, ih _ hrest]
    simp [List.getElem?_eq_getElem hlt]

/-- An index outside `values` anywhere in the index array makes the loop fail
with `IndexOutOfBounds`, whatever the destination holds so far. -/
theorem flattenLoop_out_of_bounds (values : List Int) :
    ∀ (indices dest : List Int),
      (∃ i ∈ indices, i < 0 ∨ (values.length : Int) ≤ i) →
      GeomPrimvar.flattenLoop values indices dest = .error .IndexOutOfBounds := by
  intro indices
  induction indices with
  | nil => intro dest h; obtain ⟨i, hi, _⟩ := h; cases hi
  | cons i rest ih =>
    intro dest h
    unfold GeomPrimvar.flattenLoop
    by_cases hc : 0 ≤ i ∧ i.toNat < values.length
    · rw [dif_pos hc]
      apply ih
      obtain ⟨x, hx, hbad⟩ := h
      rcases List.mem_cons.mp hx with rfl | hx'
      · exfalso
        have := (Int.toNat_lt hc.1).mp hc.2
        omega
      · exact ⟨x, hx', hbad⟩
    · rw [dif_neg hc]

/-- The index array is non-empty exactly when `has_indices` answers true. -/
theorem has_indices_iff (pv : GeomPrimvar) :
    pv.has_indices = true ↔ pv.get_indices ≠ [] := by
  unfold GeomPrimvar.has_indices GeomPrimvar.get_indices
  cases pv._indices <;> simp

/-- What a successful `get_value` tells: the primvar has a value, its attribute
resolves to the returned value, the kind is supported, and a typed request
asked for the stored type. -/
theorem get_value_ok (pv : GeomPrimvar) (req : Option ValueType) (v : Value)
    (h : pv.get_value req = .ok v) :
    pv._has_value = true ∧ pv._attr.resolve = .ok v ∧
    IsSupportedGeomPrimvarType v.type.kind = true ∧
    (∀ t, req = some t → v.type = t) := by
  unfold GeomPrimvar.get_value at h
  cases hh : pv._has_value with
  | false => simp [hh] at h
  | true =>
    simp only [hh] at h
    cases hr : pv._attr.resolve with
    | error e => simp [hr] at h
    | ok w =>
      simp only [hr] at h
      cases hs : IsSupportedGeomPrimvarType w.type.kind with
      | false => simp [hs] at h
      | true =>
        simp only [hs] at h
        cases req with
        | none =>
          simp at h
          subst h
          exact ⟨rfl, rfl, hs, fun t ht => by cases ht⟩
        | some t =>
          by_cases ht : w.type = t
          · simp [ht] at h
            subst h
            exact ⟨rfl, rfl, hs, fun t2 ht2 => by cases ht2; exact ht⟩
          · simp [ht] at h

/-- C1: `GeomPrimvar::flatten_with_indices` on an indexed primvar. For every
primvar whose value, read with the requested type, is the array `values`, and
whose index array is non-empty with every entry a valid position of `values`,
the call succeeds, and the destination is an array of the same kind with
exactly `len(indices)` elements, where `dest[j] = values[indices[j]]` for every
position `j` of the index array. -/
theorem flatten_with_indices_indexed (pv : GeomPrimvar) (req : Option ValueType)
    (k : TypeKind) (values : List Int)
    (hval : pv.get_value req = .ok (.array k values))
    (hne : pv.get_indices ≠ [])
    (hin : ∀ i ∈ pv.get_indices, 0 ≤ i ∧ i < values.length) :
    ∃ dest : List Int,
      pv.flatten_with_indices req = .ok (.array k dest) ∧
      dest.length = pv.get_indices.length ∧
      ∀ (j : Nat) (i : Int), pv.get_indices[j]? = some i →
        ∃ x, values[i.toNat]? = some x ∧ dest[j]? = some x := by
  refine ⟨pv.get_indices.map (fun i => values.getD i.toNat 0), ?_, by simp, ?_⟩
  · have hidx : pv.has_indices = true := (has_indices_iff pv).mpr hne
    unfold GeomPrimvar.flatten_with_indices
    have hloop := flattenLoop_in_bounds values pv._indices [] hin
    simp [hidx, hval, hloop, GeomPrimvar.get_indices]
  · intro j i hj
    have hi := hin i (List.getElem?_mem hj)
    have hlt : i.toNat < values.length := (Int.toNat_lt hi.1).mpr hi.2
    refine ⟨values.getD i.toNat 0, ?_, ?_⟩
    · rw [List.getD_eq_getElem _ _ hlt, List.getElem?_eq_getElem hlt]
    · rw [List.getElem?_map, hj]; rfl

/-- C1 at the input of the specification: values `[10, 20, 30]` read through
the indices `[2, 0, 0, 1]` give `[30, 10, 10, 20]`. -/
theorem flatten_with_indices_indexed_witness :
    (∃ dest : List Int,
      (GeomPrimvar.ofAttrIndices (Attribute.ofValue (.array .int [10, 20, 30]))
          [2, 0, 0, 1]).flatten_with_indices (some ⟨.int, true⟩) =
        .ok (.array .int dest) ∧
      dest.length = ([2, 0, 0, 1] : List Int).length ∧
      ∀ (j : Nat) (i : Int), ([2, 0, 0, 1] : List Int)[j]? = some i →
        ∃ x, ([10, 20, 30] : List Int)[i.toNat]? = some x ∧ dest[j]? = some x) ∧
    (GeomPrimvar.ofAttrIndices (Attribute.ofValue (.array .int [10, 20, 30]))
        [2, 0, 0, 1]).flatten_with_indices (some ⟨.int, true⟩) =
      .ok (.array .int [30, 10, 10, 20]) :=
  ⟨flatten_with_indices_indexed
      (GeomPrimvar.ofAttrIndices (Attribute.ofValue (.array .int [10, 20, 30]))
        [2, 0, 0, 1])
      (some ⟨.int, true⟩) .int [10, 20, 30] rfl (by decide) (by decide),
   rfl⟩

/-- C2: `GeomPrimvar::flatten_with_indices` never clamps. For every primvar
whose attribute resolves to the array `values` and whose index array has at
least one entry that is negative or `>= len(values)`, the call fails for every
requested type and produces no destination; when the value is readable with
the requested type, the failure is `IndexOutOfBounds`. -/
theorem flatten_with_indices_never_clamps (pv : GeomPrimvar)
    (req : Option ValueType) (k : TypeKind) (values : List Int)
    (hres : pv.get_attribute.resolve = .ok (.array k values))
    (hbad : ∃ i ∈ pv.get_indices, i < 0 ∨ (values.length : Int) ≤ i) :
    (∃ e, pv.flatten_with_indices req = .error e) ∧
    (pv.get_value req = .ok (.array k values) →
      pv.flatten_with_indices req = .error .IndexOutOfBounds) := by
  have hne : pv.get_indices ≠ [] := by
    obtain ⟨i, hi, _⟩ := hbad
    exact List.ne_nil_of_mem hi
  have hidx : pv.has_indices = true := (has_indices_iff pv).mpr hne
  have hloop := flattenLoop_out_of_bounds values pv._indices [] hbad
  have hsecond : pv.get_value req = .ok (.array k values) →
      pv.flatten_with_indices req = .error .IndexOutOfBounds := by
    intro hval
    unfold GeomPrimvar.flatten_with_indices
    simp [hidx, hval, hloop]
  refine ⟨?_, hsecond⟩
  cases hgv : pv.get_value req with
  | error e =>
    refine ⟨e, ?_⟩
    unfold GeomPrimvar.flatten_with_indices
    simp [hidx, hgv]
  | ok v =>
    have hv : v = .array k values := by
      have h1 := (get_value_ok pv req v hgv).2.1
      unfold GeomPrimvar.get_attribute at hres
      rw [hres] at h1
      cases h1
      rfl
    subst hv
    exact ⟨_, hsecond hgv⟩

/-- C2 at the input of the specification: indices `[0, 5]` against three
values fail with `IndexOutOfBounds`. -/
theorem flatten_with_indices_never_clamps_witness :
    (∃ e, (GeomPrimvar.ofAttrIndices (Attribute.ofValue (.array .int [10, 20, 30]))
        [0, 5]).flatten_with_indices (some ⟨.int, true⟩) = .error e) ∧
    (GeomPrimvar.ofAttrIndices (Attribute.ofValue (.array .int [10, 20, 30]))
        [0, 5]).flatten_with_indices (some ⟨.int, true⟩) = .error .IndexOutOfBounds :=
  ⟨(flatten_with_indices_never_clamps
      (GeomPrimvar.ofAttrIndices (Attribute.ofValue (.array .int [10, 20, 30])) [0, 5])
      (some ⟨.int, true⟩) .int [10, 20, 30] rfl ⟨5, by decide, by decide⟩).1,
   (flatten_with_indices_never_clamps
      (GeomPrimvar.ofAttrIndices (Attribute.ofValue (.array .int [10, 20, 30])) [0, 5])
      (some ⟨.int, true⟩) .int [10, 20, 30] rfl ⟨5, by decide, by decide⟩).2
      rfl⟩

/-- C3: for every GeomPrimvar whose index array is empty, and every requested
type, `flatten_with_indices` returns exactly what `get_value` returns: the same
success or failure and, on success, the same value. -/
theorem flatten_without_indices_is_get_value (pv : GeomPrimvar)
    (req : Option ValueType) (hempty : pv.get_indices = []) :
    pv.flatten_with_indices req = pv.get_value req := by
  have hidx : pv.has_indices = false := by
    cases h : pv.has_indices with
    | false => rfl
    | true => exact absurd hempty ((has_indices_iff pv).mp h)
  unfold GeomPrimvar.flatten_with_indices
  simp [hidx]

/-- C3 at the input of the specification: with no indices the values
`[10, 20, 30]` come back unchanged, and a request of another type fails the
same way through both calls. -/
theorem flatten_without_indices_is_get_value_witness :
    (GeomPrimvar.ofAttr (Attribute.ofValue (.array .int [10, 20, 30]))).flatten_with_indices
        (some ⟨.int, true⟩) =
      (GeomPrimvar.ofAttr (Attribute.ofValue (.array .int [10, 20, 30]))).get_value
        (some ⟨.int, true⟩) ∧
    (GeomPrimvar.ofAttr (Attribute.ofValue (.array .int [10, 20, 30]))).get_value
        (some ⟨.int, true⟩) = .ok (.array .int [10, 20, 30]) ∧
    (GeomPrimvar.ofAttr (Attribute.ofValue (.array .int [10, 20, 30]))).flatten_with_indices
        (some ⟨.float, true⟩) = .error .TypeMismatch :=
  ⟨flatten_without_indices_is_get_value
      (GeomPrimvar.ofAttr (Attribute.ofValue (.array .int [10, 20, 30])))
      (some ⟨.int, true⟩) rfl,
   rfl, rfl⟩

/-! ## GPrim: writing a primvar and reading it back -/

/-- Reading the name just written gives the property written. -/
theorem PropMap.lookup_insert_self (m : PropMap) (key : String) (p : Property) :
    PropMap.lookup (PropMap.insert m key p) key = some p := by
  induction m with
  | nil => simp [PropMap.insert, PropMap.lookup]
  | cons e rest ih =>
    obtain ⟨k, q⟩ := e
    unfold PropMap.insert
    by_cases hk : k = key
    · simp [hk, PropMap.lookup]
    · simp [hk, PropMap.lookup, ih]

/-- Writing under one name leaves every other name as it was. -/
theorem PropMap.lookup_insert_ne (m : PropMap) (key other : String) (p : Property)
    (hne : key ≠ other) :
    PropMap.lookup (PropMap.insert m key p) other = PropMap.lookup m other := by
  induction m with
  | nil => simp [PropMap.insert, PropMap.lookup, hne]
  | cons e rest ih =>
    obtain ⟨k, q⟩ := e
    unfold PropMap.insert
    by_cases hk : k = key
    · subst hk
      simp [PropMap.lookup, hne]
    · by_cases hko : k = other
      · subst hko
        simp [hk, PropMap.lookup]
      · simp [hk, hko, PropMap.lookup, ih]

/-- The name of an index companion is never the name of its primvar. -/
theorem indices_key_ne (base : String) : base ++ GPrim.kIndices ≠ base := by
  intro h
  have hlen := congrArg String.length h
  rw [String.length_append] at hlen
  have h8 : GPrim.kIndices.length = 8 := by decide
  omega

/-- When the property `"primvars:" + name` is an attribute, `get_primvar`
succeeds, and the primvar it builds has a value, holds that attribute and
carries the name asked for. -/
theorem get_primvar_of_attr (g : GPrim) (name : String) (a : Attribute)
    (h : g.props.lookup (GPrim.kPrimvars ++ name) = some (.attr a)) :
    ∃ pv, g.get_primvar name = .ok pv ∧ pv._has_value = true ∧ pv._attr = a ∧
      pv._name = name := by
  unfold GPrim.get_primvar
  simp only [h]
  cases hi : a.metas.interpolation <;> cases he : a.metas.elementSize <;>
    (split
     · split
       · exact ⟨_, rfl, rfl, rfl, rfl⟩
       · exact ⟨_, rfl, rfl, rfl, rfl⟩
     · exact ⟨_, rfl, rfl, rfl, rfl⟩)

/-- The value read from a primvar depends on its has-value flag and on what its
attribute resolves to, on nothing else. -/
theorem get_value_congr (p q : GeomPrimvar) (req : Option ValueType)
    (hflag : p._has_value = q._has_value)
    (hres : p._attr.resolve = q._attr.resolve) :
    p.get_value req = q.get_value req := by
  unfold GeomPrimvar.get_value
  rw [hflag, hres]

/-- C4: primvar round trip. For every GPrim, every GeomPrimvar with a non-empty
name that carries a value `v` (its `get_value` for the requested type returns
`v`), `set_primvar` succeeds, and on the resulting GPrim `get_primvar` of that
name succeeds with a primvar of that name whose `get_value` for the same
requested type returns the original `v`. -/
theorem primvar_round_trip (g : GPrim) (pv : GeomPrimvar) (req : Option ValueType)
    (v : Value) (hname : pv.name ≠ "") (hval : pv.get_value req = .ok v) :
    ∃ g2, g.set_primvar pv = .ok g2 ∧
      ∃ pv2, g2.get_primvar pv.name = .ok pv2 ∧ pv2.name = pv.name ∧
        pv2.get_value req = .ok v := by
  obtain ⟨hflag, -, -, -⟩ := get_value_ok pv req v hval
  have hsame : (GPrim.primvarAttribute pv).resolve = pv._attr.resolve := by
    unfold GPrim.primvarAttribute GeomPrimvar.get_attribute
    cases pv._interpolation <;> cases pv._elementSize <;> rfl
  obtain ⟨g2, hg2, hlook⟩ : ∃ g2, g.set_primvar pv = .ok g2 ∧
      g2.props.lookup (GPrim.kPrimvars ++ pv.name) =
        some (.attr (GPrim.primvarAttribute pv)) := by
    unfold GPrim.set_primvar
    rw [if_neg hname]
    refine ⟨_, rfl, ?_⟩
    by_cases hidx : pv.has_indices = true
    · simp only [hidx, if_true]
      rw [PropMap.lookup_insert_ne _ _ _ _ (indices_key_ne _),
        PropMap.lookup_insert_self]
    · simp only [hidx]
      exact PropMap.lookup_insert_self _ _ _
  obtain ⟨pv2, hget, hf2, hattr2, hname2⟩ :=
    get_primvar_of_attr g2 pv.name _ hlook
  refine ⟨g2, hg2, pv2, hget, hname2, ?_⟩
  rw [get_value_congr pv2 pv req (hf2.trans hflag.symm) (by rw [hattr2, hsame])]
  exact hval

/-- C4 at a concrete input: a `float3[]` primvar named `st`, with indices,
written to a prim and read back. -/
theorem primvar_round_trip_witness :
    ∃ g2, (GPrim.mk "mesh" .Def (-1) "Mesh" [] ⟨[]⟩).set_primvar
        ((GeomPrimvar.ofAttrIndices (Attribute.ofValue (.array .float3 [7, 8, 9]))
          [0, 2]).set_name "st") = .ok g2 ∧
      ∃ pv2, g2.get_primvar
          ((GeomPrimvar.ofAttrIndices (Attribute.ofValue (.array .float3 [7, 8, 9]))
            [0, 2]).set_name "st").name = .ok pv2 ∧
        pv2.name =
          ((GeomPrimvar.ofAttrIndices (Attribute.ofValue (.array .float3 [7, 8, 9]))
            [0, 2]).set_name "st").name ∧
        pv2.get_value (some ⟨.float3, true⟩) = .ok (.array .float3 [7, 8, 9]) :=
  primvar_round_trip (GPrim.mk "mesh" .Def (-1) "Mesh" [] ⟨[]⟩)
    ((GeomPrimvar.ofAttrIndices (Attribute.ofValue (.array .float3 [7, 8, 9]))
      [0, 2]).set_name "st")
    (some ⟨.float3, true⟩) (.array .float3 [7, 8, 9]) (by decide) rfl

/-! ## GeomMesh: precedence of the sources of normals -/

/-- One step of the counting loop. -/
theorem countStep_getD (n : Nat) (cnt : List Nat) (hlen : cnt.length = n) (i f : Nat) :
    (if i < n then cnt.set i (cnt.getD i 0 + 1) else cnt).getD f 0 =
      cnt.getD f 0 + (if i < n ∧ i = f then 1 else 0) := by
  by_cases hi : i < n
  · by_cases hif : i = f
    · subst hif
      simp [hi, List.getD_eq_getElem?_getD, List.getElem?_set_self (hlen ▸ hi)]
    · simp [hi, hif, List.getD_eq_getElem?_getD, List.getElem?_set_ne hif]
  · simp [hi]

/-- The counting loop adds to each counter the number of occurrences of its
face among the indices read. -/
theorem countLoop_getD (n : Nat) (ids : List Nat) :
    ∀ (cnt : List Nat), cnt.length = n → ∀ f, f < n →
      (ids.foldl (fun cnt i => if i < n then cnt.set i (cnt.getD i 0 + 1) else cnt)
        cnt).getD f 0 = cnt.getD f 0 + ids.count f := by
  induction ids with
  | nil => intro cnt _ f _; simp
  | cons i rest ih =>
    intro cnt hlen f hf
    rw [List.foldl_cons]
    have hlen2 : (if i < n then cnt.set i (cnt.getD i 0 + 1) else cnt).length = n := by
      split <;> simp [hlen]
    rw [ih _ hlen2 f hf, countStep_getD n cnt hlen i f, List.count_cons]
    by_cases hif : i = f
    · subst hif; simp [hf]; omega
    · simp [hif]

/-- The counter of a face of the mesh is the number of times the face occurs
among the indices. -/
theorem countFaces_getD (n : Nat) (ids : List Nat) (f : Nat) (hf : f < n) :
    (GeomMesh.countFaces n ids).getD f 0 = ids.count f := by
  unfold GeomMesh.countFaces
  rw [countLoop_getD n ids _ (by simp) f hf]
  simp [List.getD_eq_getElem?_getD, List.getElem?_replicate, hf]

/-- No face is missing and none is duplicated exactly when every counter is
one. -/
theorem no_missing_no_duplicated_iff (n : Nat) (cnt : List Nat) :
    (GeomMesh.missingFaces n cnt = [] ∧ GeomMesh.duplicatedFaces n cnt = []) ↔
      ∀ f, f < n → cnt.getD f 0 = 1 := by
  unfold GeomMesh.missingFaces GeomMesh.duplicatedFaces
  simp only [List.filter_eq_nil_iff, List.mem_range]
  constructor
  · rintro ⟨h0, h1⟩ f hf
    have a := h0 f hf
    have b := h1 f hf
    generalize cnt.getD f 0 = x at a b ⊢
    simp at a b
    omega
  · intro h
    constructor
    · intro f hf
      have hx := h f hf
      generalize cnt.getD f 0 = x at hx ⊢
      simp [hx]
    · intro f hf
      have hx := h f hf
      generalize cnt.getD f 0 = x at hx ⊢
      simp [hx]

/-- The subsets are validated one after the other: the whole validation
succeeds exactly when the rule of every subset does. -/
theorem validateAll_ok_iff (n : Nat) (children : List GeomSubset) :
    ∀ (l : List GeomSubset),
      GeomMesh.validateAll n children l = .ok true ↔
        ∀ s ∈ l, ∃ b, GeomMesh.validateSubset n children s = .ok b := by
  intro l
  induction l with
  | nil => simp [GeomMesh.validateAll]
  | cons s rest ih =>
    unfold GeomMesh.validateAll
    cases hs : GeomMesh.validateSubset n children s with
    | error e => simp [hs]
    | ok b => simp [hs, ih]

/-- The rule of a subset of a family of type Partition whose siblings are all
the children: it holds exactly when every face of the mesh occurs once among
the indices of the children. -/
theorem validateSubset_partition_iff (n : Nat) (children : List GeomSubset)
    (s : GeomSubset) (hty : s.familyType = .Partition)
    (hsib : ∀ t ∈ children, t.familyName = s.familyName) :
    (∃ b, GeomMesh.validateSubset n children s = .ok b) ↔
      ∀ f, f < n → (children.flatMap (fun t => t.indices)).count f = 1 := by
  have hfilter : children.filter (fun t => t.familyName = s.familyName) = children := by
    rw [List.filter_eq_self]
    intro t ht
    simp [hsib t ht]
  unfold GeomMesh.validateSubset
  simp only [hty, hfilter]
  by_cases hc : GeomMesh.missingFaces n
        (GeomMesh.countFaces n (children.flatMap (fun t => t.indices))) = [] ∧
      GeomMesh.duplicatedFaces n
        (GeomMesh.countFaces n (children.flatMap (fun t => t.indices))) = []
  · rw [if_pos hc]
    have h := (no_missing_no_duplicated_iff n _).mp hc
    constructor
    · intro _ f hf
      rw [← countFaces_getD n _ f hf]
      exact h f hf
    · intro _
      exact ⟨true, rfl⟩
  · rw [if_neg hc]
    constructor
    · rintro ⟨b, hb⟩
      cases hb
    · intro h
      exfalso
      apply hc
      apply (no_missing_no_duplicated_iff n _).mpr
      intro f hf
      rw [countFaces_getD n _ f hf]
      exact h f hf

/-- C6: GeomSubset partition validation. For a mesh with `N` faces whose
attached subsets are a non-empty family of type Partition sharing one
familyName, `ValidateGeomSubset` succeeds if and only if every face index
`0..N-1` occurs exactly once across the index lists of the subsets. -/
theorem partition_validation_iff (m : GeomMesh) (familyName : Option String)
    (hne : m.geom_subset_children ≠ [])
    (hfam : ∀ s ∈ m.geom_subset_children,
      s.familyType = .Partition ∧ s.familyName = familyName) :
    m.ValidateGeomSubset = .ok true ↔
      ∀ f, f < m.get_faceVertexCounts.length →
        (m.geom_subset_children.flatMap (fun s => s.indices)).count f = 1 := by
  unfold GeomMesh.ValidateGeomSubset
  rw [validateAll_ok_iff]
  have hrule : ∀ s ∈ m.geom_subset_children,
      ((∃ b, GeomMesh.validateSubset m.get_faceVertexCounts.length
          m.geom_subset_children s = .ok b) ↔
        ∀ f, f < m.get_faceVertexCounts.length →
          (m.geom_subset_children.flatMap (fun t => t.indices)).count f = 1) := by
    intro s hs
    apply validateSubset_partition_iff _ _ s (hfam s hs).1
    intro t ht
    rw [(hfam t ht).2, (hfam s hs).2]
  constructor
  · intro h
    obtain ⟨s, hs⟩ := List.exists_mem_of_ne_nil _ hne
    exact (hrule s hs).mp (h s hs)
  · intro h s hs
    exact (hrule s hs).mpr h

/-- C6 at the inputs of the specification, a mesh with 4 faces: the subsets
`[0, 1]` and `[2, 3]` validate; `[0, 1]` and `[2]` fail with face 3 missing;
`[0, 1]` and `[1, 2]` fail with face 1 duplicated (and face 3 missing). -/
theorem partition_validation_iff_witness :
    (GeomMesh.mk (GPrim.mk "m" .Def (-1) "Mesh" [] ⟨[]⟩) none none none
        (some (.attr (Attribute.ofValue (.array .int [3, 3, 3, 3])))) none .Partition
        [GeomSubset.mk "s0" .Def (-1) .Face .Partition (some "materialBind") [0, 1] [] ⟨[]⟩,
         GeomSubset.mk "s1" .Def (-1) .Face .Partition (some "materialBind") [2, 3] [] ⟨[]⟩]).ValidateGeomSubset = .ok true ∧
    (GeomMesh.mk (GPrim.mk "m" .Def (-1) "Mesh" [] ⟨[]⟩) none none none
        (some (.attr (Attribute.ofValue (.array .int [3, 3, 3, 3])))) none .Partition
        [GeomSubset.mk "s0" .Def (-1) .Face .Partition (some "materialBind") [0, 1] [] ⟨[]⟩,
         GeomSubset.mk "s1" .Def (-1) .Face .Partition (some "materialBind") [2] [] ⟨[]⟩]).ValidateGeomSubset ≠ .ok true ∧
    (GeomMesh.mk (GPrim.mk "m" .Def (-1) "Mesh" [] ⟨[]⟩) none none none
        (some (.attr (Attribute.ofValue (.array .int [3, 3, 3, 3])))) none .Partition
        [GeomSubset.mk "s0" .Def (-1) .Face .Partition (some "materialBind") [0, 1] [] ⟨[]⟩,
         GeomSubset.mk "s1" .Def (-1) .Face .Partition (some "materialBind") [2] [] ⟨[]⟩]).ValidateGeomSubset =
        .error (.SubsetConstraintViolation [3] []) ∧
    (GeomMesh.mk (GPrim.mk "m" .Def (-1) "Mesh" [] ⟨[]⟩) none none none
        (some (.attr (Attribute.ofValue (.array .int [3, 3, 3, 3])))) none .Partition
        [GeomSubset.mk "s0" .Def (-1) .Face .Partition (some "materialBind") [0, 1] [] ⟨[]⟩,
         GeomSubset.mk "s1" .Def (-1) .Face .Partition (some "materialBind") [1, 2] [] ⟨[]⟩]).ValidateGeomSubset =
        .error (.SubsetConstraintViolation [3] [1]) :=
  ⟨(partition_validation_iff
      (GeomMesh.mk (GPrim.mk "m" .Def (-1) "Mesh" [] ⟨[]⟩) none none none
        (some (.attr (Attribute.ofValue (.array .int [3, 3, 3, 3])))) none .Partition
        [GeomSubset.mk "s0" .Def (-1) .Face .Partition (some "materialBind") [0, 1] [] ⟨[]⟩,
         GeomSubset.mk "s1" .Def (-1) .Face .Partition (some "materialBind") [2, 3] [] ⟨[]⟩])
      (some "materialBind") (by decide) (by decide)).mpr (by decide),
   fun h => absurd
     ((partition_validation_iff
        (GeomMesh.mk (GPrim.mk "m" .Def (-1) "Mesh" [] ⟨[]⟩) none none none
        (some (.attr (Attribute.ofValue (.array .int [3, 3, 3, 3])))) none .Partition
        [GeomSubset.mk "s0" .Def (-1) .Face .Partition (some "materialBind") [0, 1] [] ⟨[]⟩,
         GeomSubset.mk "s1" .Def (-1) .Face .Partition (some "materialBind") [2] [] ⟨[]⟩])
        (some "materialBind") (by decide) (by decide)).mp h) (by decide),
   rfl, rfl⟩

/-! ## GeomPrimvar: setters, copy construction and copy assignment -/

/-- C11: the setters of GeomPrimvar are pure local mutations of one field. For
every GeomPrimvar, `set_name` changes only the name, `set_indices` only the
index array, `set_elementSize` only elementSize, `set_interpolation` only the
interpolation, and `set_value` (the overload taking an Attribute and the
template overload taking a value) changes only the bound attribute and sets
has_value to true; every other field is unchanged. The setters return nothing
and are total: none can fail. -/
theorem setters_change_one_field (pv : GeomPrimvar) (name : String)
    (indices : List Int) (n : Nat) (interp : Interpolation) (attr : Attribute)
    (val : Value) :
    ((pv.set_name name)._name = name ∧
      (pv.set_name name)._has_value = pv._has_value ∧
      (pv.set_name name)._attr = pv._attr ∧
      (pv.set_name name)._indices = pv._indices ∧
      (pv.set_name name)._elementSize = pv._elementSize ∧
      (pv.set_name name)._interpolation = pv._interpolation) ∧
    ((pv.set_indices indices)._indices = indices ∧
      (pv.set_indices indices)._name = pv._name ∧
      (pv.set_indices indices)._has_value = pv._has_value ∧
      (pv.set_indices indices)._attr = pv._attr ∧
      (pv.set_indices indices)._elementSize = pv._elementSize ∧
      (pv.set_indices indices)._interpolation = pv._interpolation) ∧
    ((pv.set_elementSize n)._elementSize = some n ∧
      (pv.set_elementSize n)._name = pv._name ∧
      (pv.set_elementSize n)._has_value = pv._has_value ∧
      (pv.set_elementSize n)._attr = pv._attr ∧
      (pv.set_elementSize n)._indices = pv._indices ∧
      (pv.set_elementSize n)._interpolation = pv._interpolation) ∧
    ((pv.set_interpolation interp)._interpolation = some interp ∧
      (pv.set_interpolation interp)._name = pv._name ∧
      (pv.set_interpolation interp)._has_value = pv._has_value ∧
      (pv.set_interpolation interp)._attr = pv._attr ∧
      (pv.set_interpolation interp)._indices = pv._indices ∧
      (pv.set_interpolation interp)._elementSize = pv._elementSize) ∧
    ((pv.set_value attr)._attr = attr ∧
      (pv.set_value attr)._has_value = true ∧
      (pv.set_value attr)._name = pv._name ∧
      (pv.set_value attr)._indices = pv._indices ∧
      (pv.set_value attr)._elementSize = pv._elementSize ∧
      (pv.set_value attr)._interpolation = pv._interpolation) ∧
    ((pv.set_value_typed val)._attr = pv._attr.set_value val ∧
      (pv.set_value_typed val)._has_value = true ∧
      (pv.set_value_typed val)._name = pv._name ∧
      (pv.set_value_typed val)._indices = pv._indices ∧
      (pv.set_value_typed val)._elementSize = pv._elementSize ∧
      (pv.set_value_typed val)._interpolation = pv._interpolation) := by
  refine ⟨?_, ?_, ?_, ?_, ?_, ?_⟩ <;> exact ⟨rfl, rfl, rfl, rfl, rfl, rfl⟩

/-- Copy assignment, field by field: name, attribute, indices and flag are
those of the source; each optional is the source's when the source has one,
and stays what the target had when the source has none. -/
theorem assign_fields (self rhs : GeomPrimvar) :
    (GeomPrimvar.assign self rhs)._name = rhs._name ∧
    (GeomPrimvar.assign self rhs)._attr = rhs._attr ∧
    (GeomPrimvar.assign self rhs)._indices = rhs._indices ∧
    (GeomPrimvar.assign self rhs)._has_value = rhs._has_value ∧
    (GeomPrimvar.assign self rhs)._elementSize =
      (if rhs._elementSize.isSome then rhs._elementSize else self._elementSize) ∧
    (GeomPrimvar.assign self rhs)._interpolation =
      (if rhs._interpolation.isSome then rhs._interpolation
        else self._interpolation) := by
  unfold GeomPrimvar.assign
  cases rhs._elementSize <;> cases rhs._interpolation <;>
    exact ⟨rfl, rfl, rfl, rfl, rfl, rfl⟩

/-- Copy construction gives back the source itself. -/
theorem copy_eq (rhs : GeomPrimvar) : GeomPrimvar.copy rhs = rhs := by
  obtain ⟨nm, hv, at_, idx, es, ip⟩ := rhs
  unfold GeomPrimvar.copy
  cases es <;> cases ip <;> rfl

/-- C12, the claim as stated fails: `set_elementSize(0)` on a default
constructed GeomPrimvar leaves elementSize present with the value 0, which is
not `>= 1`. -/
theorem elementSize_zero_is_reachable :
    ∃ n, (Construction.set_elementSize Construction.new 0).result._elementSize = some n ∧
      ¬ 1 ≤ n :=
  ⟨0, rfl, by decide⟩

/-- C12, amended: `set_elementSize` stores its argument as it is. For every
GeomPrimvar reachable from a constructed one by any sequence of `set_value`,
`set_name`, `set_indices`, `set_elementSize`, `set_interpolation` and
copy/assignment operations in which every `set_elementSize` call passed a size
`>= 1`, if elementSize is present then `elementSize >= 1`. -/
theorem elementSize_positive_of_positive_arguments (c : Construction)
    (hpos : c.sizesPositive = true) (n : Nat)
    (hn : c.result._elementSize = some n) : 1 ≤ n := by
  induction c generalizing n with
  | new => cases hn
  | ofAttr attr => cases hn
  | ofAttrIndices attr indices => cases hn
  | copy rhs ih =>
    simp only [Construction.result, copy_eq] at hn
    exact ih hpos n hn
  | assign self rhs ihs ihr =>
    simp only [Construction.sizesPositive, Bool.and_eq_true] at hpos
    simp only [Construction.result] at hn
    rw [(assign_fields self.result rhs.result).2.2.2.2.1] at hn
    by_cases hr : rhs.result._elementSize.isSome = true
    · rw [if_pos hr] at hn
      exact ihr hpos.2 n hn
    · rw [if_neg hr] at hn
      exact ihs hpos.1 n hn
  | set_value c attr ih => exact ih hpos n hn
  | set_value_typed c val ih => exact ih hpos n hn
  | set_name c name ih => exact ih hpos n hn
  | set_indices c indices ih => exact ih hpos n hn
  | set_elementSize c m ih =>
    simp only [Construction.sizesPositive, Bool.and_eq_true, decide_eq_true_eq] at hpos
    simp only [Construction.result, GeomPrimvar.set_elementSize, Option.some.injEq] at hn
    omega
  | set_interpolation c interp ih => exact ih hpos n hn

/-- C12 amended, at a concrete construction: a primvar with elementSize 4,
assigned from a copy of one with elementSize 2 whose name was set afterwards. -/
theorem elementSize_positive_of_positive_arguments_witness :
    (Construction.assign (Construction.set_elementSize Construction.new 4)
      (Construction.set_name
        (Construction.copy (Construction.set_elementSize
          (Construction.ofAttr Attribute.empty) 2)) "st")).result._elementSize = some 2 ∧
    1 ≤ 2 :=
  ⟨rfl,
   elementSize_positive_of_positive_arguments
     (Construction.assign (Construction.set_elementSize Construction.new 4)
       (Construction.set_name
         (Construction.copy (Construction.set_elementSize
           (Construction.ofAttr Attribute.empty) 2)) "st"))
     rfl 2 rfl⟩

/-- C13, the code at the failing input: assigning a default constructed
GeomPrimvar (no elementSize, no interpolation) to one that has elementSize 3
and interpolation `vertex` leaves the target with elementSize 3 and
interpolation `vertex`, while name, attribute, indices and flag are those of
the source. After `a = b` the target differs from the source. -/
theorem assign_keeps_stale_optionals :
    (GeomPrimvar.assign
        ((GeomPrimvar.new.set_elementSize 3).set_interpolation .vertex)
        GeomPrimvar.new)._elementSize = some 3 ∧
    (GeomPrimvar.assign
        ((GeomPrimvar.new.set_elementSize 3).set_interpolation .vertex)
        GeomPrimvar.new)._interpolation = some .vertex ∧
    GeomPrimvar.new._elementSize = none ∧
    GeomPrimvar.new._interpolation = none ∧
    GeomPrimvar.assign
        ((GeomPrimvar.new.set_elementSize 3).set_interpolation .vertex)
        GeomPrimvar.new ≠ GeomPrimvar.new := by
  refine ⟨rfl, rfl, rfl, rfl, ?_⟩
  intro h
  have := congrArg GeomPrimvar._elementSize h
  cases this

/-- C14: GeomPrimvar copy construction produces a field-for-field snapshot. For
every GeomPrimvar `b`, the GeomPrimvar constructed from `b` has the same name,
bound attribute, index array and has_value; it has elementSize present exactly
when `b` does, with the same value, and interpolation present exactly when `b`
does, with the same value. -/
theorem copy_is_snapshot (b : GeomPrimvar) :
    (GeomPrimvar.copy b)._name = b._name ∧
    (GeomPrimvar.copy b)._attr = b._attr ∧
    (GeomPrimvar.copy b)._indices = b._indices ∧
    (GeomPrimvar.copy b)._has_value = b._has_value ∧
    ((GeomPrimvar.copy b)._elementSize.isSome = b._elementSize.isSome ∧
      ∀ n, (GeomPrimvar.copy b)._elementSize = some n ↔ b._elementSize = some n) ∧
    ((GeomPrimvar.copy b)._interpolation.isSome = b._interpolation.isSome ∧
      ∀ i, (GeomPrimvar.copy b)._interpolation = some i ↔
        b._interpolation = some i) := by
  rw [copy_eq]
  exact ⟨rfl, rfl, rfl, rfl, ⟨rfl, fun _ => Iff.rfl⟩, ⟨rfl, fun _ => Iff.rfl⟩⟩

/-! ## GeomSubset: the string setters touch one field -/

/-- C15: the string setters of GeomSubset are atomic and touch one field. For
every GeomSubset and every string `str`: when `SetFamilyType(str)` or
`SetElementType(str)` returns an error, the GeomSubset is entirely unchanged;
when `SetFamilyType(str)` succeeds only familyType may differ, and when
`SetElementType(str)` succeeds only elementType may differ (name, spec,
parent_id, familyName, indices, props and meta are never modified). -/
theorem string_setters_touch_one_field (s : GeomSubset) (str : String) :
    (∀ e, (s.SetFamilyType str).1 = .error e → (s.SetFamilyType str).2 = s) ∧
    (∀ e, (s.SetElementType str).1 = .error e → (s.SetElementType str).2 = s) ∧
    (∀ b, (s.SetFamilyType str).1 = .ok b →
      (s.SetFamilyType str).2.name = s.name ∧
      (s.SetFamilyType str).2.spec = s.spec ∧
      (s.SetFamilyType str).2.parent_id = s.parent_id ∧
      (s.SetFamilyType str).2.elementType = s.elementType ∧
      (s.SetFamilyType str).2.familyName = s.familyName ∧
      (s.SetFamilyType str).2.indices = s.indices ∧
      (s.SetFamilyType str).2.props = s.props ∧
      (s.SetFamilyType str).2.meta = s.meta) ∧
    (∀ b, (s.SetElementType str).1 = .ok b →
      (s.SetElementType str).2.name = s.name ∧
      (s.SetElementType str).2.spec = s.spec ∧
      (s.SetElementType str).2.parent_id = s.parent_id ∧
      (s.SetElementType str).2.familyType = s.familyType ∧
      (s.SetElementType str).2.familyName = s.familyName ∧
      (s.SetElementType str).2.indices = s.indices ∧
      (s.SetElementType str).2.props = s.props ∧
      (s.SetElementType str).2.meta = s.meta) := by
  refine ⟨?_, ?_, ?_, ?_⟩
  · intro e he
    unfold GeomSubset.SetFamilyType at he ⊢
    by_cases h1 : str = "partition"
    · simp [h1] at he
    · by_cases h2 : str = "nonOverlapping"
      · simp [h2] at he
      · by_cases h3 : str = "unrestricted"
        · simp [h3] at he
        · simp [h1, h2, h3]
  · intro e he
    unfold GeomSubset.SetElementType at he ⊢
    by_cases h : str = "face"
    · simp [h] at he
    · simp [h]
  · intro b _
    unfold GeomSubset.SetFamilyType
    by_cases h1 : str = "partition"
    · simp [h1]
    · by_cases h2 : str = "nonOverlapping"
      · simp [h2]
      · by_cases h3 : str = "unrestricted"
        · simp [h3]
        · simp [h1, h2, h3]
  · intro b _
    unfold GeomSubset.SetElementType
    by_cases h : str = "face"
    · simp [h]
    · simp [h]

/-- C15 at concrete inputs, on a subset of family type Partition with indices
`[0, 1]`: a refused string leaves the subset as it was, and `"unrestricted"`
changes the family type and keeps the indices. -/
theorem string_setters_touch_one_field_witness :
    ((GeomSubset.mk "s" .Def (-1) .Face .Partition (some "materialBind") [0, 1] []
        ⟨[]⟩).SetFamilyType "Partition").2 =
      GeomSubset.mk "s" .Def (-1) .Face .Partition (some "materialBind") [0, 1] []
        ⟨[]⟩ ∧
    ((GeomSubset.mk "s" .Def (-1) .Face .Partition (some "materialBind") [0, 1] []
        ⟨[]⟩).SetElementType "point").2 =
      GeomSubset.mk "s" .Def (-1) .Face .Partition (some "materialBind") [0, 1] []
        ⟨[]⟩ ∧
    ((GeomSubset.mk "s" .Def (-1) .Face .Partition (some "materialBind") [0, 1] []
        ⟨[]⟩).SetFamilyType "unrestricted").2.indices = [0, 1] ∧
    ((GeomSubset.mk "s" .Def (-1) .Face .Partition (some "materialBind") [0, 1] []
        ⟨[]⟩).SetFamilyType "unrestricted").2.familyType = .Unrestricted :=
  ⟨(string_setters_touch_one_field
      (GeomSubset.mk "s" .Def (-1) .Face .Partition (some "materialBind") [0, 1] [] ⟨[]⟩)
      "Partition").1 _ rfl,
   (string_setters_touch_one_field
      (GeomSubset.mk "s" .Def (-1) .Face .Partition (some "materialBind") [0, 1] [] ⟨[]⟩)
      "point").2.1 _ rfl,
   ((string_setters_touch_one_field
      (GeomSubset.mk "s" .Def (-1) .Face .Partition (some "materialBind") [0, 1] [] ⟨[]⟩)
      "unrestricted").2.2.1 true rfl).2.2.2.2.2.1,
   rfl⟩

end tinyusdz
